import Mathlib

/-!
Shallow embedding of the astrology core of the `oneiro-scope` repository
(`src/backend/services/astrology/`), covering the orb policies, the aspect
detectors, the transit engine, the favorability scorer, the natal-chart
planet/house computation, the quality gates and the lunar-phase helper.

Python `float` values are modelled as `ℚ` (all constants appearing in the
source are decimal literals, hence exact rationals).  Python's `%` on
numbers is `pymod`, `int(...)` truncation is `pytrunc`, `abs` is `pyabs`.
String-keyed enums (`Planet`, `ZodiacSign`, `AspectType`, `EventType`) are
modelled as inductive types whose constructors correspond one-to-one to the
enum members of `schemas.py`; `Planet.value` recovers the string value.
The external ephemeris engine is passed in as an explicit function
argument, exactly as the code consumes `self.ephemeris`.
-/

/-- Python `%` for rationals: `x % m = x - m * floor (x / m)` (result has
the sign of the divisor, matching CPython float `%`). -/
def pymod (x m : ℚ) : ℚ := x - m * (⌊x / m⌋ : ℤ)

/-- Python `int(...)` applied to a rational: truncation toward zero. -/
def pytrunc (x : ℚ) : ℤ := if 0 ≤ x then ⌊x⌋ else -⌊-x⌋

/-- Python built-in `abs` on a rational. -/
def pyabs (x : ℚ) : ℚ := if x < 0 then -x else x

/-- The `Planet` enum of `schemas.py`, constructors in source order. -/
inductive Planet
  | sun | moon | mercury | venus | mars | jupiter | saturn
  | uranus | neptune | pluto | north_node | south_node | chiron
  deriving DecidableEq

/-- `Planet.value`: the string value of each enum member. -/
def Planet.value : Planet → String
  | .sun => "sun" | .moon => "moon" | .mercury => "mercury"
  | .venus => "venus" | .mars => "mars" | .jupiter => "jupiter"
  | .saturn => "saturn" | .uranus => "uranus" | .neptune => "neptune"
  | .pluto => "pluto" | .north_node => "north_node"
  | .south_node => "south_node" | .chiron => "chiron"

/-- The `ZodiacSign` enum of `schemas.py`. -/
inductive ZodiacSign
  | aries | taurus | gemini | cancer | leo | virgo
  | libra | scorpio | sagittarius | capricorn | aquarius | pisces
  deriving DecidableEq

/-- The `ZODIAC_SIGNS` table of `ephemeris.py` (index order). -/
def ZODIAC_SIGNS : List ZodiacSign :=
  [.aries, .taurus, .gemini, .cancer, .leo, .virgo,
   .libra, .scorpio, .sagittarius, .capricorn, .aquarius, .pisces]

/-- The `AspectType` enum of `schemas.py`. -/
inductive AspectType
  | conjunction | sextile | square | trine | opposition | quincunx
  deriving DecidableEq

/-- `AspectType.value`: the string value of each enum member. -/
def AspectType.value : AspectType → String
  | .conjunction => "conjunction" | .sextile => "sextile"
  | .square => "square" | .trine => "trine"
  | .opposition => "opposition" | .quincunx => "quincunx"

/-- The `EventType` enum of `schemas.py`. -/
inductive EventType
  | travel | wedding | business | interview | surgery
  | moving | contract | exam | date | other
  deriving DecidableEq

/-! ## Orb policies (`policies/orbs.py`) -/

/-- `natal_orb_for` of `policies/orbs.py`: the `NATAL_DEFAULT` table keyed
by the body class of the given body. -/
def natal_orb_for (body : Planet) : ℚ :=
  if body ∈ [Planet.sun, Planet.moon] then 10
  else if body ∈ [Planet.mercury, Planet.venus, Planet.mars] then 8
  else if body ∈ [Planet.jupiter, Planet.saturn] then 7
  else 6

/-- `transit_orb_for` of `policies/orbs.py`: the `TRANSIT_DEFAULT` table
keyed by the body class of the transiting body. -/
def transit_orb_for (transit_body : Planet) : ℚ :=
  if transit_body ∈ [Planet.sun, Planet.moon] then 2.5
  else if transit_body ∈ [Planet.mercury, Planet.venus, Planet.mars] then 2
  else if transit_body ∈ [Planet.jupiter, Planet.saturn] then 1.5
  else 1

/-! ## Aspect tables -/

/-- The `ASPECT_ANGLES` dict (identical in `transits.py`,
`natal_chart.py` and `engine/aspects.py`), in dict insertion order, which
is the iteration order of the aspect-matching loops. -/
def ASPECT_ANGLES : List (AspectType × ℚ) :=
  [(.conjunction, 0), (.sextile, 60), (.square, 90),
   (.trine, 120), (.quincunx, 150), (.opposition, 180)]

/-- The `TRANSIT_ORBS` dict of `transits.py`: transit orb limits keyed by
aspect type. -/
def TRANSIT_ORBS : AspectType → ℚ
  | .conjunction => 3 | .opposition => 3 | .trine => 2
  | .square => 2 | .sextile => 2 | .quincunx => 1

/-- The `ASPECT_ORBS` dict of `natal_chart.py`: natal orb limits keyed by
aspect type. -/
def ASPECT_ORBS : AspectType → ℚ
  | .conjunction => 10 | .opposition => 10 | .trine => 8
  | .square => 8 | .sextile => 6 | .quincunx => 3

/-! ## Ephemeris helpers (`ephemeris.py`) -/

/-- The `PlanetData` dataclass of `ephemeris.py`. -/
structure PlanetData where
  longitude : ℚ
  latitude : ℚ
  distance : ℚ
  speed : ℚ

/-- `SwissEphemeris.get_zodiac_sign`: zodiac sign and degree within sign
from an ecliptic longitude (`sign_index = int(longitude / 30) % 12`,
`degree_in_sign = longitude % 30`). -/
def get_zodiac_sign (longitude : ℚ) : ZodiacSign × ℚ :=
  (ZODIAC_SIGNS.getD (pytrunc (longitude / 30) % 12).toNat .aries,
   pymod longitude 30)

/-- `SwissEphemeris.is_retrograde`: `speed < 0`. -/
def is_retrograde (speed : ℚ) : Bool := decide (speed < 0)

/-- `SwissEphemeris.get_lunar_info`, parametrised by the Sun and Moon
ecliptic longitudes that `calculate_planet_position` returns for the
requested date.  Returns the phase name and the lunar day. -/
def get_lunar_info (sun_longitude moon_longitude : ℚ) : String × ℤ :=
  let phase_angle := pymod (moon_longitude - sun_longitude) 360
  let lunar_day := max 1 (min 30 (pytrunc (phase_angle / 12) + 1))
  let phase :=
    if phase_angle < 11.25 then "new_moon"
    else if phase_angle < 78.75 then "waxing_crescent"
    else if phase_angle < 101.25 then "first_quarter"
    else if phase_angle < 168.75 then "waxing_gibbous"
    else if phase_angle < 191.25 then "full_moon"
    else if phase_angle < 258.75 then "waning_gibbous"
    else if phase_angle < 281.25 then "last_quarter"
    else "waning_crescent"
  (phase, lunar_day)

/-- The eight lunar phase names that `get_lunar_info` can produce. -/
def LUNAR_PHASES : List String :=
  ["new_moon", "waxing_crescent", "first_quarter", "waxing_gibbous",
   "full_moon", "waning_gibbous", "last_quarter", "waning_crescent"]

/-! ## Quality gates (`validators/quality_gates.py`) -/

/-- The `House` model of `schemas.py` (the `planets` list is irrelevant to
the validators and house construction below carries it verbatim). -/
structure House where
  number : ℕ
  sign : ZodiacSign
  degree : ℚ
  planets : List Planet
  deriving DecidableEq

/-- The ordering scan of `validate_houses`: the loop over
`zip(cusps, cusps[1:])` reports an error as soon as some later cusp degree
is `≤` the earlier one; `ordering_ok` is true exactly when the loop adds
no error. -/
def ordering_ok : List House → Bool
  | a :: b :: rest => decide (a.degree < b.degree) && ordering_ok (b :: rest)
  | _ => true

/-- `validate_houses` of `validators/quality_gates.py`.  The function
mutates a `QualityReport`; here it returns the pair
`(errors added, warnings added)`. -/
def validate_houses (cusps : Option (List House)) (birth_time_present : Bool) :
    List String × List String :=
  if birth_time_present then
    match cusps with
    | none => (["HOUSES_MISSING"], [])
    | some l =>
        if l.length ≠ 12 then (["HOUSES_COUNT_INVALID"], [])
        else if ordering_ok l then ([], []) else (["HOUSE_ORDERING"], [])
  else
    match cusps with
    | some _ => (["HOUSES_SHOULD_BE_NONE"], [])
    | none => ([], ["HOUSES_NOT_COMPUTED_NO_BIRTHTIME"])

/-- JSON values as fed to `detect_numeric_hallucination`.  A `num` leaf
carries the decimal rendering that Python's `str()` produces for the
number (e.g. `2.0` ↦ `"2.0"`, `5` ↦ `"5"`), which is all the source ever
uses of a numeric leaf (`numbers.append(str(data))`). -/
inductive Json
  | num : String → Json
  | str : String → Json
  | null : Json
  | arr : List Json → Json
  | obj : List (String × Json) → Json

mutual

/-- `_extract_numbers_from_json`: recursively collect the renderings of
every numeric leaf. -/
def extract_numbers : Json → List String
  | .num s => [s]
  | .str _ => []
  | .null => []
  | .arr elems => extract_numbers_list elems
  | .obj fields => extract_numbers_fields fields

/-- `_extract_numbers_from_json` over a JSON array's elements. -/
def extract_numbers_list : List Json → List String
  | [] => []
  | v :: rest => extract_numbers v ++ extract_numbers_list rest

/-- `_extract_numbers_from_json` over a JSON object's values. -/
def extract_numbers_fields : List (String × Json) → List String
  | [] => []
  | (_, v) :: rest => extract_numbers v ++ extract_numbers_fields rest

end

/-- `\d+` at the head of the input: the (greedy) run of digits and the
remaining input, failing when there is no digit. -/
def match_digits (cs : List Char) : Option (List Char × List Char) :=
  let d := cs.takeWhile Char.isDigit
  if d.isEmpty then none else some (d, cs.dropWhile Char.isDigit)


/-- `\.\d+` at the head of the input. -/
def match_frac (cs : List Char) : Option (List Char × List Char) :=
  match cs with
  | [] => none
  | c :: rest =>
      if c = '.' then (match_digits rest).map (fun p => ('.' :: p.1, p.2))
      else none

/-- The part of a `NUMERIC_PATTERN` match after the optional sign:
greedy digits, then optionally a fractional part (preferring the float
alternative of the regex, falling back to the integer alternative). -/
def match_number_core (cs1 sign : List Char) : Option (List Char × List Char) :=
  match match_digits cs1 with
  | none => none
  | some (d1, cs2) =>
      match match_frac cs2 with
      | some (f, cs3) => some (sign ++ d1 ++ f, cs3)
      | none => some (sign ++ d1, cs2)

/-- One match attempt of `NUMERIC_PATTERN = -?\d+\.\d+|-?\d+` at the head
of the character list; on success returns the matched characters and the
remaining input. -/
def match_number (cs : List Char) : Option (List Char × List Char) :=
  match cs with
  | [] => none
  | c :: rest =>
      if c = '-' then match_number_core rest ['-']
      else match_number_core (c :: rest) []

/-- `NUMERIC_PATTERN.findall(text)`: scan left to right, at each position
attempting a match; on success emit the match and continue after it,
otherwise advance one character.  The recursion is fuelled by the input
length (a successful match always consumes at least one character, so
`length` fuel is exact). -/
def findall_go : ℕ → List Char → List String
  | 0, _ => []
  | _, [] => []
  | fuel + 1, c :: rest =>
      match match_number (c :: rest) with
      | some (m, remaining) => String.mk m :: findall_go fuel remaining
      | none => findall_go fuel rest

/-- `NUMERIC_PATTERN.findall(text)` over a character list. -/
def findall_numbers (cs : List Char) : List String := findall_go cs.length cs

/-- `detect_numeric_hallucination` of `validators/quality_gates.py`:
numeric literals of the text not among the (stringified) numbers of the
computed facts, in text order. -/
def detect_numeric_hallucination (text : String) (computed_json : Json) :
    List String :=
  let allowed_numbers := extract_numbers computed_json
  (findall_numbers text.data).filter (fun m => decide (m ∉ allowed_numbers))

/-! ## Transit calculations (`transits.py`) -/

/-- The `PlanetPosition` model of `schemas.py`; `degree` is the absolute
ecliptic longitude, `sign_degree` the degree within the sign. -/
structure PlanetPosition where
  planet : Planet
  sign : ZodiacSign
  degree : ℚ
  sign_degree : ℚ
  retrograde : Bool
  house : Option ℕ
  deriving DecidableEq

/-- The `TransitInfo` model of `schemas.py`.  Dates are modelled as
integer day numbers; the `description` string (a lookup in the static
`TRANSIT_MEANINGS` table, unused by every consumer modelled here) is
omitted. -/
structure TransitInfo where
  transiting_planet : Planet
  natal_planet : Planet
  aspect : AspectType
  exact_date : ℤ
  orb : ℚ
  deriving DecidableEq

/-- The shared aspect-matching loop body (`for aspect_type, exact_angle in
ASPECT_ANGLES.items(): ... if deviation <= orb: return ...`), used by both
`TransitCalculator._find_transit_aspect` and
`NatalChartCalculator._find_aspect` with their respective orb tables:
returns the first aspect type whose deviation is within its orb, together
with that deviation. -/
def scan_aspects (diff : ℚ) (orb_of : AspectType → ℚ) :
    List (AspectType × ℚ) → Option (AspectType × ℚ)
  | [] => none
  | (a, exact_angle) :: rest =>
      if pyabs (diff - exact_angle) ≤ orb_of a then
        some (a, pyabs (diff - exact_angle))
      else scan_aspects diff orb_of rest

/-- `TransitCalculator._find_transit_aspect`: angular separation folded
into `[0, 180]`, then the first aspect of `ASPECT_ANGLES` whose deviation
is within the aspect-type orb of `TRANSIT_ORBS`. -/
def find_transit_aspect (trans_planet : Planet) (trans_longitude : ℚ)
    (natal_planet : Planet) (natal_longitude : ℚ) (check_date : ℤ) :
    Option TransitInfo :=
  let diff0 := pyabs (trans_longitude - natal_longitude)
  let diff := if 180 < diff0 then 360 - diff0 else diff0
  match scan_aspects diff TRANSIT_ORBS ASPECT_ANGLES with
  | none => none
  | some (a, deviation) =>
      some ⟨trans_planet, natal_planet, a, check_date, deviation⟩

/-- The `transiting_planets` list of `TransitCalculator.calculate_transits`. -/
def transiting_planets : List Planet :=
  [.mars, .jupiter, .saturn, .uranus, .neptune, .pluto]

/-- The `natal_points` list of `TransitCalculator.calculate_transits`. -/
def natal_points : List Planet :=
  [.sun, .moon, .mercury, .venus, .mars, .jupiter, .saturn]

/-- The `while current_date <= end_date` day loop: the list of days from
`start_date` to `end_date` inclusive (empty when the range is empty). -/
def date_range (start_date end_date : ℤ) : List ℤ :=
  (List.range (end_date + 1 - start_date).toNat).map
    (fun (i : ℕ) => start_date + (i : ℤ))

/-- One (day, transiting planet, natal point) probe of
`calculate_transits`: look up the natal position (`next(p for p in
natal_planets if p.planet == ...)`) and, if present, run
`_find_transit_aspect` against the transiting longitude of that day. -/
def hit_at (ephem : Planet → ℤ → ℚ) (natal_planets : List PlanetPosition)
    (trans_planet natal_planet : Planet) (d : ℤ) : Option TransitInfo :=
  match natal_planets.find? (fun p => decide (p.planet = natal_planet)) with
  | none => none
  | some natal_pos =>
      find_transit_aspect trans_planet (ephem trans_planet d)
        natal_planet natal_pos.degree d

/-- Two `TransitInfo`s agree on the (transiting body, natal body, aspect
type) triple used by the duplicate check of `calculate_transits`. -/
def same_triple (t u : TransitInfo) : Prop :=
  t.transiting_planet = u.transiting_planet ∧
  t.natal_planet = u.natal_planet ∧ t.aspect = u.aspect

instance (t u : TransitInfo) : Decidable (same_triple t u) := by
  unfold same_triple
  infer_instance

/-- The duplicate check of `calculate_transits`: append the new
`TransitInfo` unless one with the same triple was already recorded. -/
def dedup_append (transits : List TransitInfo) (info : TransitInfo) :
    List TransitInfo :=
  if ∃ t ∈ transits, same_triple t info then transits else transits ++ [info]

/-- `TransitCalculator.calculate_transits`, parametrised by the ephemeris
longitude function `ephem` (`calculate_planet_position(...).longitude` for
a planet on a day).  Mirrors the day / transiting-planet / natal-point
loops with the duplicate suppression. -/
def calculate_transits (ephem : Planet → ℤ → ℚ)
    (natal_planets : List PlanetPosition) (start_date end_date : ℤ) :
    List TransitInfo :=
  (date_range start_date end_date).foldl (fun transits d =>
    transiting_planets.foldl (fun transits trans_planet =>
      natal_points.foldl (fun transits natal_planet =>
        match hit_at ephem natal_planets trans_planet natal_planet d with
        | none => transits
        | some aspect_info => dedup_append transits aspect_info) transits)
      transits) []

/-! ## Favorability scorer (`service.py`) -/

/-- The `retrograde_penalties` dict of
`AstrologyService._calculate_favorability`. -/
def retrograde_penalties (p : Planet) : Option (List EventType) :=
  match p with
  | .mercury => some [.contract, .interview, .exam]
  | .venus => some [.wedding, .date]
  | .mars => some [.surgery, .business]
  | _ => none

/-- The `favorable_phases` dict of
`AstrologyService._calculate_favorability` (`.get(lunar_phase, [])`). -/
def favorable_phases (lunar_phase : String) : List EventType :=
  if lunar_phase = "new_moon" then [.business, .contract]
  else if lunar_phase = "waxing_crescent" then [.interview, .exam]
  else if lunar_phase = "first_quarter" then [.business, .moving]
  else if lunar_phase = "waxing_gibbous" then [.wedding, .date]
  else if lunar_phase = "full_moon" then [.travel]
  else if lunar_phase = "waning_gibbous" then [.surgery]
  else if lunar_phase = "last_quarter" then [.moving]
  else if lunar_phase = "waning_crescent" then [.surgery]
  else []

/-- The transit loop step of `_calculate_favorability`: harmonious
aspects add 5 and a positive factor, hard aspects subtract 5 and add a
risk factor. -/
def favorability_transit_step (acc : ℤ × List String × List String)
    (transit : TransitInfo) : ℤ × List String × List String :=
  if transit.aspect ∈ [AspectType.trine, AspectType.sextile] then
    (acc.1 + 5,
     acc.2.1 ++ [transit.transiting_planet.value ++ " " ++
       transit.aspect.value ++ " " ++ transit.natal_planet.value],
     acc.2.2)
  else if transit.aspect ∈ [AspectType.square, AspectType.opposition] then
    (acc.1 - 5,
     acc.2.1,
     acc.2.2 ++ [transit.transiting_planet.value ++ " " ++
       transit.aspect.value ++ " " ++ transit.natal_planet.value])
  else acc

/-- The retrograde loop step of `_calculate_favorability`. -/
def favorability_retro_step (event_type : EventType)
    (acc : ℤ × List String × List String) (planet : Planet) :
    ℤ × List String × List String :=
  match retrograde_penalties planet with
  | none => acc
  | some affected_events =>
      if event_type ∈ affected_events then
        (acc.1 - 15, acc.2.1, acc.2.2 ++ [planet.value ++ " ретроградный"])
      else (acc.1 - 5, acc.2.1, acc.2.2)

/-- `AstrologyService._calculate_favorability`: base score 50, transit
bonuses/penalties, event-specific retrograde penalties, lunar-phase bonus,
clamped to `[0, 100]`; returns `(score, positive_factors, risk_factors)`.
The `lunar_day` argument is accepted and ignored, as in the source. -/
def calculate_favorability (transits : List TransitInfo)
    (retrograde_planets : List Planet) (lunar_phase : String)
    (lunar_day : ℤ) (event_type : EventType) :
    ℤ × List String × List String :=
  let init : ℤ × List String × List String := (50, [], [])
  let after_transits := transits.foldl favorability_transit_step init
  let after_retro :=
    retrograde_planets.foldl (favorability_retro_step event_type) after_transits
  let after_lunar :=
    if event_type ∈ favorable_phases lunar_phase then
      (after_retro.1 + 10,
       after_retro.2.1 ++ ["Благоприятная лунная фаза: " ++ lunar_phase],
       after_retro.2.2)
    else after_retro
  (max 0 (min 100 after_lunar.1), after_lunar.2.1, after_lunar.2.2)

/-- `AstrologyService._score_to_level`. -/
def score_to_level (score : ℤ) : String :=
  if 80 ≤ score then "excellent"
  else if 60 ≤ score then "good"
  else if 40 ≤ score then "neutral"
  else if 20 ≤ score then "challenging"
  else "difficult"

/-- The per-day inputs of the favorability computation (the transits,
retrograde planets, lunar phase and lunar day that `forecast_event` /
`_find_better_dates` recompute for a date from the ephemeris and the
optional natal chart). -/
def day_score (day_inputs : ℤ → List TransitInfo × List Planet × String × ℤ)
    (event_type : EventType) (d : ℤ) : ℤ :=
  let di := day_inputs d
  (calculate_favorability di.1 di.2.1 di.2.2.1 di.2.2.2 event_type).1

/-- The `range(-7, 8)` loop of `_find_better_dates` with `delta == 0`
skipped. -/
def better_date_deltas : List ℤ :=
  ((List.range 15).map (fun i => (i : ℤ) - 7)).filter (fun δ => decide (δ ≠ 0))

/-- `AstrologyService._find_better_dates`: score every date within ±7
days of the original (excluding it), keep dates scoring ≥ 60, sort by
score descending (Python's stable sort) and return the top 3 dates. -/
def find_better_dates (day_inputs : ℤ → List TransitInfo × List Planet × String × ℤ)
    (event_type : EventType) (original_date : ℤ) : List ℤ :=
  let alternatives := better_date_deltas.filterMap (fun δ =>
    let check_date := original_date + δ
    let score := day_score day_inputs event_type check_date
    if 60 ≤ score then some (check_date, score) else none)
  ((List.insertionSort (fun a b : ℤ × ℤ => b.2 ≤ a.2) alternatives).take 3).map
    Prod.fst

/-- The alternative-dates decision of `AstrologyService.forecast_event`:
`_find_better_dates` runs exactly when the favorability score of the
event date is below 50, otherwise `alternative_dates` stays `None`. -/
def forecast_alternative_dates
    (day_inputs : ℤ → List TransitInfo × List Planet × String × ℤ)
    (event_type : EventType) (event_date : ℤ) : Option (List ℤ) :=
  if day_score day_inputs event_type event_date < 50 then
    some (find_better_dates day_inputs event_type event_date)
  else none

/-! ## Engine aspect detection (`engine/aspects.py`, `engine/transits.py`) -/

/-- The `BodyState` dataclass of `engine/aspects.py` (body names are
modelled by the `Planet` enum whose values are the name strings). -/
structure BodyState where
  name : Planet
  longitude : ℚ
  speed : ℚ

/-- The `AspectResult` dataclass of `engine/aspects.py`. -/
structure AspectResult where
  planet1 : Planet
  planet2 : Planet
  aspect : AspectType
  orb : ℚ
  applying : Bool

/-- `_normalize_angle` of `engine/aspects.py`: `angle % 360`. -/
def normalize_angle (angle : ℚ) : ℚ := pymod angle 360

/-- `_delta_angle` of `engine/aspects.py`: signed difference folded into
`(-180, 180]`. -/
def delta_angle (angle_a angle_b : ℚ) : ℚ :=
  let diff := normalize_angle (angle_a - angle_b)
  if diff ≤ 180 then diff else diff - 360

/-- `_is_applying` of `engine/aspects.py`: project both bodies forward by
`dt = 0.1` day along their speeds and compare the magnitudes of the
signed deltas to the target angle. -/
def aspects_is_applying (first second : BodyState) (target_angle : ℚ) : Bool :=
  let delta_now := delta_angle (second.longitude - target_angle) first.longitude
  let lon_first_future := first.longitude + first.speed * 0.1
  let lon_second_future := second.longitude + second.speed * 0.1
  let delta_future :=
    delta_angle (lon_second_future - target_angle) lon_first_future
  decide (pyabs delta_future < pyabs delta_now)

/-- The inner aspect loop of `detect_aspects` for one ordered pair of
bodies: every aspect of `ASPECT_ANGLES` whose deviation from the pair's
angular separation lies within the natal orb of the *first* body. -/
def aspects_for_pair (first second : BodyState) : List AspectResult :=
  let angle := pyabs (delta_angle second.longitude first.longitude)
  ASPECT_ANGLES.filterMap (fun p =>
    if pyabs (angle - p.2) ≤ natal_orb_for first.name then
      some ⟨first.name, second.name, p.1, pyabs (angle - p.2),
            aspects_is_applying first second p.2⟩
    else none)

/-- `detect_aspects` of `engine/aspects.py`: all ordered pairs
`(body_list[i], body_list[j])` with `i < j`, in loop order. -/
def detect_aspects : List BodyState → List AspectResult
  | [] => []
  | first :: rest => rest.flatMap (aspects_for_pair first) ++ detect_aspects rest

/-- A transiting body state as consumed by `detect_transits` of
`engine/transits.py` (a dict with `name`, `longitude`, `speed` and a
`datetime`, the last modelled as an integer day stamp). -/
structure TransBodyState where
  name : Planet
  longitude : ℚ
  speed : ℚ
  dt : ℤ

/-- A natal body state as consumed by `detect_transits` (only `name` and
`longitude` are read). -/
structure NatalBodyState where
  name : Planet
  longitude : ℚ

/-- The `Transit` dataclass of `engine/transits.py`. -/
structure EngineTransit where
  transiting : Planet
  natal : Planet
  aspect : AspectType
  orb : ℚ
  applying : Bool
  exact_datetime : ℤ

/-- `_is_applying` of `engine/transits.py`: only the transiting body is
projected forward by `dt = 0.1` day; the natal longitude stays fixed. -/
def transits_is_applying (transit : TransBodyState) (natal : NatalBodyState)
    (target_angle : ℚ) : Bool :=
  let delta_now := delta_angle (transit.longitude - target_angle) natal.longitude
  let future_transit := transit.longitude + transit.speed * 0.1
  let future_delta := delta_angle (future_transit - target_angle) natal.longitude
  decide (pyabs future_delta < pyabs delta_now)

/-- `detect_transits` of `engine/transits.py`: every
(transiting, natal) pair, every aspect of `ASPECT_ANGLES` whose deviation
lies within the transit orb of the transiting body. -/
def detect_transits (transiting_states : List TransBodyState)
    (natal_states : List NatalBodyState) : List EngineTransit :=
  transiting_states.flatMap (fun transit =>
    natal_states.flatMap (fun natal =>
      let angle := pyabs (delta_angle transit.longitude natal.longitude)
      ASPECT_ANGLES.filterMap (fun p =>
        if pyabs (angle - p.2) ≤ transit_orb_for transit.name then
          some ⟨transit.name, natal.name, p.1, pyabs (angle - p.2),
                transits_is_applying transit natal p.2, transit.dt⟩
        else none)))

/-! ## Natal chart (`natal_chart.py`, `service.py`) -/

/-- The `Aspect` model of `schemas.py`. -/
structure Aspect where
  planet1 : Planet
  planet2 : Planet
  aspect_type : AspectType
  orb : ℚ
  applying : Bool
  deriving DecidableEq

/-- The `fast_planets` list of `NatalChartCalculator._is_applying`. -/
def fast_planets : List Planet := [.moon, .sun, .mercury, .venus, .mars]

/-- `NatalChartCalculator._is_applying`: the speed-free fast-planet
heuristic (`True` when planet1 is fast and planet2 is not, `False` in the
converse case, `True` otherwise). -/
def natal_is_applying (planet1 planet2 : PlanetPosition)
    (aspect_type : AspectType) : Bool :=
  if planet1.planet ∈ fast_planets ∧ planet2.planet ∉ fast_planets then true
  else if planet2.planet ∈ fast_planets ∧ planet1.planet ∉ fast_planets then
    false
  else true

/-- `NatalChartCalculator._find_aspect`: angular separation folded into
`[0, 180]`, then the first aspect of `ASPECT_ANGLES` within the
aspect-type orb of `ASPECT_ORBS`, with the heuristic applying flag. -/
def find_aspect (planet1 planet2 : PlanetPosition) : Option Aspect :=
  let diff0 := pyabs (planet1.degree - planet2.degree)
  let diff := if 180 < diff0 then 360 - diff0 else diff0
  match scan_aspects diff ASPECT_ORBS ASPECT_ANGLES with
  | none => none
  | some (a, deviation) =>
      some ⟨planet1.planet, planet2.planet, a, deviation,
            natal_is_applying planet1 planet2 a⟩

/-- The `for planet in Planet` iteration order of
`NatalChartCalculator.calculate_planets`. -/
def planets_enum : List Planet :=
  [.sun, .moon, .mercury, .venus, .mars, .jupiter, .saturn,
   .uranus, .neptune, .pluto, .north_node, .south_node, .chiron]

/-- One `PlanetPosition` as built by the main loop of
`calculate_planets`. -/
def planet_position_of (ephem : Planet → PlanetData) (planet : Planet) :
    PlanetPosition :=
  let data := ephem planet
  let sd := get_zodiac_sign data.longitude
  ⟨planet, sd.1, data.longitude, sd.2, is_retrograde data.speed, none⟩

/-- `NatalChartCalculator.calculate_planets`, parametrised by the
ephemeris (`calculate_planet_position` for the birth instant).  The main
loop skips the South Node (`continue`); afterwards the South Node is
derived from the North Node at `+180°`, always flagged retrograde, as in
the source (`retrograde=True,  # Nodes are always retrograde`). -/
def calculate_planets (ephem : Planet → PlanetData) : List PlanetPosition :=
  let planets := (planets_enum.filter (fun p => decide (p ≠ .south_node))).map
    (planet_position_of ephem)
  match planets.find? (fun p => decide (p.planet = .north_node)) with
  | none => planets
  | some north_node =>
      let south_node_degree := pymod (north_node.degree + 180) 360
      let s := get_zodiac_sign south_node_degree
      planets ++ [⟨.south_node, s.1, south_node_degree, s.2, true, none⟩]

/-- `NatalChartCalculator._calculate_whole_sign_houses`: 12 whole-sign
houses anchored on the Sun's sign, each cusp at degree 0. -/
def whole_sign_houses (sun_longitude : ℚ) : List House :=
  let sun_sign := (get_zodiac_sign sun_longitude).1
  let start_index := ZODIAC_SIGNS.findIdx (fun s => decide (s = sun_sign))
  (List.range 12).map (fun i =>
    ⟨i + 1, ZODIAC_SIGNS.getD ((start_index + i) % 12) .aries, 0, []⟩)

/-- `NatalChartCalculator.calculate_houses`, parametrised by the result
of the Swiss Ephemeris `houses` call (`none` models "library missing or
call failed", in which case the whole-sign fallback runs; the source
returns a list on every path). -/
def calculate_houses (swe_houses : Option (Fin 12 → ℚ)) (sun_longitude : ℚ) :
    List House :=
  match swe_houses with
  | none => whole_sign_houses sun_longitude
  | some cusps =>
      (List.finRange 12).map (fun i =>
        let cusp_degree := cusps i
        let s := get_zodiac_sign cusp_degree
        ⟨(i : ℕ) + 1, s.1, s.2, []⟩)

/-- The slice of `NatalChartResponse` that the house-presence claims are
about. -/
structure NatalChartData where
  planets : List PlanetPosition
  houses : Option (List House)

/-- `AstrologyService.calculate_natal_chart`, reduced to the fields the
claims concern: planet positions are always computed (house numbers are
never filled in — `assign_planets_to_houses` is not called on this path);
houses are computed exactly when a birth time was supplied
(`if request.birth_time:`), using noon for the planet computation
otherwise, which is irrelevant here because the ephemeris argument
already fixes the instant. -/
def calculate_natal_chart (ephem : Planet → PlanetData)
    (swe_houses : Option (Fin 12 → ℚ)) (birth_time : Option ℚ) :
    NatalChartData :=
  let planets := calculate_planets ephem
  let houses :=
    match birth_time with
    | some _ => some (calculate_houses swe_houses (ephem .sun).longitude)
    | none => none
  ⟨planets, houses⟩

/-! ## Reference predicates and concrete inputs used by the verification -/

/-- A retrograde planet whose penalty list contains the event type
(the `-15` branch of the retrograde loop). -/
def retro_hit (event_type : EventType) (p : Planet) : Bool :=
  match retrograde_penalties p with
  | some affected_events => decide (event_type ∈ affected_events)
  | none => false

/-- A retrograde planet with a penalty list not containing the event type
(the `-5` branch of the retrograde loop). -/
def retro_miss (event_type : EventType) (p : Planet) : Bool :=
  match retrograde_penalties p with
  | some affected_events => decide (event_type ∉ affected_events)
  | none => false

/-- The computed facts of the specification's example:
`{"aspects": [{"orb": 2.0}]}` (Python renders `2.0` as `"2.0"`). -/
def example_facts : Json :=
  .obj [("aspects", .arr [.obj [("orb", .num "2.0")]])]

/-- A natal chart consisting of the Sun at longitude 0°. -/
def sun_at_zero : List PlanetPosition :=
  [⟨.sun, .aries, 0, 0, false, none⟩]

/-- Ephemeris: transiting Mars at 2.5° on day 0 and 1° on day 1, every
other body parked at 30° (no aspect to a natal point at 0°). -/
def mars_closing_ephem : Planet → ℤ → ℚ := fun p d =>
  if p = .mars then (if d = 0 then 2.5 else 1) else 30

/-- Natal positions: Jupiter at longitude 9.5°, Saturn at 0°. -/
def jupiter_pos : PlanetPosition := ⟨.jupiter, .aries, 9.5, 9.5, false, none⟩

/-- See `jupiter_pos`. -/
def saturn_pos : PlanetPosition := ⟨.saturn, .aries, 0, 0, false, none⟩

/-- Natal positions: the Moon at longitude 245°, Jupiter at 0° (a trine
with deviation 5°). -/
def moon_pos : PlanetPosition := ⟨.moon, .sagittarius, 245, 5, false, none⟩

/-- See `moon_pos`. -/
def jupiter_pos0 : PlanetPosition := ⟨.jupiter, .aries, 0, 0, false, none⟩

/-- Engine body state for the Moon of `moon_pos`, moving at 13°/day. -/
def moon_state : BodyState := ⟨.moon, 245, 13⟩

/-- Engine body state for the Jupiter of `jupiter_pos0`, stationary. -/
def jupiter_state : BodyState := ⟨.jupiter, 0, 0⟩

/-- An ephemeris in which every body (including the nodes) moves direct
at +1°/day. -/
def all_direct_ephem : Planet → PlanetData := fun _ => ⟨10, 0, 1, 1⟩

/-- An ephemeris in which every body sits at longitude 0 with speed
-1°/day. -/
def all_retro_ephem : Planet → PlanetData := fun _ => ⟨0, 0, 1, -1⟩

/-- Twelve cusps with strictly increasing degrees `1°..12°`. -/
def increasing_cusps : List House :=
  [⟨1, .aries, 1, []⟩, ⟨2, .aries, 2, []⟩, ⟨3, .aries, 3, []⟩,
   ⟨4, .aries, 4, []⟩, ⟨5, .aries, 5, []⟩, ⟨6, .aries, 6, []⟩,
   ⟨7, .aries, 7, []⟩, ⟨8, .aries, 8, []⟩, ⟨9, .aries, 9, []⟩,
   ⟨10, .aries, 10, []⟩, ⟨11, .aries, 11, []⟩, ⟨12, .aries, 12, []⟩]

/-- Favorability day inputs: on day 0 Mercury and Mars are retrograde
under a full moon (score 30 for a contract); on any other day nothing is
retrograde and the Moon is new (score 60 for a contract). -/
def contract_day_inputs : ℤ → List TransitInfo × List Planet × String × ℤ :=
  fun d =>
    if d = 0 then ([], [.mercury, .mars], "full_moon", 1)
    else ([], [], "new_moon", 1)

/-- All probes of one day of the `calculate_transits` loop, in loop order
(transiting planets outer, natal points inner). -/
def probe_options (ephem : Planet → ℤ → ℚ) (natal_planets : List PlanetPosition)
    (d : ℤ) : List (Option TransitInfo) :=
  transiting_planets.flatMap (fun trans_planet =>
    natal_points.map (fun natal_planet =>
      hit_at ephem natal_planets trans_planet natal_planet d))

/-- Process one probe result: skip a miss, dedup-append a hit. -/
def dedup_step (transits : List TransitInfo) (o : Option TransitInfo) :
    List TransitInfo :=
  match o with
  | none => transits
  | some info => dedup_append transits info

/-- Process a list of probe results in order. -/
def dedup_fold (transits : List TransitInfo) (items : List (Option TransitInfo)) :
    List TransitInfo :=
  items.foldl dedup_step transits

/-- No two recorded transits share the (transiting, natal, aspect) triple. -/
def NoDupTriple (A : List TransitInfo) : Prop :=
  ∀ t ∈ A, ∀ u ∈ A, same_triple t u → t = u

/-- Invariant of the day loop of `calculate_transits` after processing the
days `P`: recorded transits have pairwise distinct triples, each stems
from its own day's probe, every triple that hit on a processed day is
recorded, and each recorded transit's day is the earliest processed day on
which its (transiting, natal) pair produced its aspect. -/
def transits_inv (ephem : Planet → ℤ → ℚ) (natal_planets : List PlanetPosition)
    (P : List ℤ) (A : List TransitInfo) : Prop :=
  NoDupTriple A
  ∧ (∀ t ∈ A, t.exact_date ∈ P ∧ t.transiting_planet ∈ transiting_planets
      ∧ t.natal_planet ∈ natal_points
      ∧ hit_at ephem natal_planets t.transiting_planet t.natal_planet
          t.exact_date = some t)
  ∧ (∀ d ∈ P, ∀ tp ∈ transiting_planets, ∀ np ∈ natal_points,
      ∀ u, hit_at ephem natal_planets tp np d = some u →
        ∃ v ∈ A, same_triple v u)
  ∧ (∀ t ∈ A, ∀ d ∈ P,
      ∀ u, hit_at ephem natal_planets t.transiting_planet t.natal_planet d
          = some u →
        u.aspect = t.aspect → t.exact_date ≤ d)

/-! ## Theorems -/

theorem ordering_ok_iff (l : List House) :
    ordering_ok l = true ↔
      List.Chain' (fun a b : House => a.degree < b.degree) l := by
  induction l with
  | nil => simp [ordering_ok]
  | cons a t ih =>
      cases t with
      | nil => simp [ordering_ok]
      | cons b t2 =>
          have he : ordering_ok (a :: b :: t2) =
              (decide (a.degree < b.degree) && ordering_ok (b :: t2)) := rfl
          rw [he, List.chain'_cons, ← ih]
          simp

/-- C9: with a birth time present, `validate_houses` reports no error
exactly when there are exactly 12 cusps whose degrees strictly increase
along the list (so the only permitted wraparound through 0°/360° is
between house 12 and house 1, which the scan never compares); a wrong
count yields `HOUSES_COUNT_INVALID` and a non-increasing ordering yields
`HOUSE_ORDERING`. -/
theorem validate_houses_iff_twelve_increasing (l : List House) :
    ((validate_houses (some l) true).1 = [] ↔
      l.length = 12 ∧ List.Chain' (fun a b : House => a.degree < b.degree) l)
    ∧ (l.length ≠ 12 →
        (validate_houses (some l) true).1 = ["HOUSES_COUNT_INVALID"])
    ∧ (l.length = 12 →
        ¬ List.Chain' (fun a b : House => a.degree < b.degree) l →
        (validate_houses (some l) true).1 = ["HOUSE_ORDERING"]) := by
  unfold validate_houses
  by_cases h12 : l.length = 12
  · by_cases hord : ordering_ok l = true
    · have hchain := (ordering_ok_iff l).mp hord
      simp [h12, hord, hchain]
    · have hchain : ¬ List.Chain' (fun a b : House => a.degree < b.degree) l :=
        fun hc => hord ((ordering_ok_iff l).mpr hc)
      simp [h12, hord, hchain]
  · simp [h12]

theorem validate_houses_iff_twelve_increasing_witness :
    (validate_houses (some increasing_cusps) true).1 = [] :=
  (validate_houses_iff_twelve_increasing increasing_cusps).1.mpr
    ⟨by simp [increasing_cusps],
     by norm_num [increasing_cusps, List.chain'_cons]⟩

/-- C10: for any Sun/Moon longitudes, `get_lunar_info` returns one of the
eight fixed phase names and a lunar day in `[1, 30]`. -/
theorem get_lunar_info_range (sun_longitude moon_longitude : ℚ) :
    (get_lunar_info sun_longitude moon_longitude).1 ∈ LUNAR_PHASES
    ∧ 1 ≤ (get_lunar_info sun_longitude moon_longitude).2
    ∧ (get_lunar_info sun_longitude moon_longitude).2 ≤ 30 := by
  unfold get_lunar_info
  refine ⟨?_, ?_, ?_⟩ <;> dsimp only
  · split_ifs <;> simp [LUNAR_PHASES]
  · exact le_max_left 1 _
  · exact max_le (by norm_num) (min_le_left _ _)

/-- C6: `detect_numeric_hallucination("orb is 5 degrees",
{"aspects": [{"orb": 2.0}]})` reports exactly `"5"`, and in general a
numeric literal that occurs verbatim among the numbers recursively
extracted from the computed facts is never flagged. -/
theorem detect_numeric_hallucination_example_and_soundness :
    detect_numeric_hallucination "orb is 5 degrees" example_facts = ["5"]
    ∧ ∀ (text : String) (computed_json : Json) (m : String),
        m ∈ extract_numbers computed_json →
        m ∉ detect_numeric_hallucination text computed_json := by
  constructor
  · decide
  · intro text computed_json m hallowed
    unfold detect_numeric_hallucination
    simp [List.mem_filter, hallowed]

theorem detect_numeric_hallucination_example_and_soundness_witness :
    "2.0" ∉ detect_numeric_hallucination "the orb is 2.0 degrees" example_facts :=
  detect_numeric_hallucination_example_and_soundness.2
    "the orb is 2.0 degrees" example_facts "2.0" (by decide)

theorem favorability_transit_fold (l : List TransitInfo)
    (acc : ℤ × List String × List String) :
    (l.foldl favorability_transit_step acc).1 =
      acc.1 + 5 * (l.countP (fun t =>
          decide (t.aspect ∈ [AspectType.trine, AspectType.sextile])) : ℤ)
        - 5 * (l.countP (fun t =>
          decide (t.aspect ∈ [AspectType.square, AspectType.opposition])) : ℤ) := by
  induction l generalizing acc with
  | nil => simp
  | cons t l ih =>
      rw [List.foldl_cons, ih]
      cases ha : t.aspect <;>
        simp [favorability_transit_step, ha, List.countP_cons] <;> ring

theorem favorability_retro_fold (event_type : EventType) (l : List Planet)
    (acc : ℤ × List String × List String) :
    (l.foldl (favorability_retro_step event_type) acc).1 =
      acc.1 - 15 * (l.countP (retro_hit event_type) : ℤ)
        - 5 * (l.countP (retro_miss event_type) : ℤ) := by
  induction l generalizing acc with
  | nil => simp
  | cons p l ih =>
      rw [List.foldl_cons, ih]
      cases hp : p <;> cases hev : event_type <;>
        simp [favorability_retro_step, retro_hit, retro_miss,
          retrograde_penalties, hp, hev, List.countP_cons] <;> ring

/-- C3: the favorability score equals the reference computation — 50, plus
5 per trine/sextile transit, minus 5 per square/opposition transit, minus
15 per retrograde planet whose penalty list contains the event type and 5
per penalised retrograde planet whose list does not, plus 10 when the
lunar phase favours the event type, clamped to `[0, 100]` — and in
particular always lies in `[0, 100]`. -/
theorem calculate_favorability_reference (transits : List TransitInfo)
    (retrograde_planets : List Planet) (lunar_phase : String) (lunar_day : ℤ)
    (event_type : EventType) :
    (calculate_favorability transits retrograde_planets lunar_phase lunar_day
        event_type).1 =
      max 0 (min 100
        (50 + 5 * (transits.countP (fun t =>
            decide (t.aspect ∈ [AspectType.trine, AspectType.sextile])) : ℤ)
          - 5 * (transits.countP (fun t =>
            decide (t.aspect ∈ [AspectType.square, AspectType.opposition])) : ℤ)
          - 15 * (retrograde_planets.countP (retro_hit event_type) : ℤ)
          - 5 * (retrograde_planets.countP (retro_miss event_type) : ℤ)
          + (if event_type ∈ favorable_phases lunar_phase then 10 else 0)))
    ∧ 0 ≤ (calculate_favorability transits retrograde_planets lunar_phase
        lunar_day event_type).1
    ∧ (calculate_favorability transits retrograde_planets lunar_phase lunar_day
        event_type).1 ≤ 100 := by
  refine ⟨?_, ?_, ?_⟩
  · unfold calculate_favorability
    dsimp only
    by_cases hl : event_type ∈ favorable_phases lunar_phase <;>
      simp only [hl, if_true, if_false] <;>
      rw [favorability_retro_fold, favorability_transit_fold] <;>
      simp <;> ring_nf
  · unfold calculate_favorability
    dsimp only
    exact le_max_left 0 _
  · unfold calculate_favorability
    dsimp only
    exact max_le (by norm_num) (min_le_left _ _)

theorem better_date_deltas_bounds :
    ∀ δ ∈ better_date_deltas, 1 ≤ |δ| ∧ |δ| ≤ 7 := by decide

theorem better_date_deltas_nodup : better_date_deltas.Nodup := by decide

theorem mem_better_date_alternatives
    (day_inputs : ℤ → List TransitInfo × List Planet × String × ℤ)
    (event_type : EventType) (original_date : ℤ) (p : ℤ × ℤ)
    (hp : p ∈ better_date_deltas.filterMap (fun δ =>
      if 60 ≤ day_score day_inputs event_type (original_date + δ) then
        some (original_date + δ, day_score day_inputs event_type
          (original_date + δ))
      else none)) :
    p.2 = day_score day_inputs event_type p.1 ∧ 60 ≤ p.2 ∧
      ∃ δ ∈ better_date_deltas, p.1 = original_date + δ := by
  rw [List.mem_filterMap] at hp
  obtain ⟨δ, hδ, hsome⟩ := hp
  split_ifs at hsome with hscore
  cases hsome
  exact ⟨rfl, hscore, δ, hδ, rfl⟩

/-- C7: the alternative-date search runs exactly when the original score
is below 50; every returned date differs from the original by 1..7 days
and independently re-scores at least 60; at most 3 dates are returned,
duplicate-free, never the original date, sorted by descending score. -/
theorem find_better_dates_spec
    (day_inputs : ℤ → List TransitInfo × List Planet × String × ℤ)
    (event_type : EventType) (original_date : ℤ) :
    ((forecast_alternative_dates day_inputs event_type original_date).isSome ↔
      day_score day_inputs event_type original_date < 50)
    ∧ (∀ l, forecast_alternative_dates day_inputs event_type original_date
          = some l →
        l = find_better_dates day_inputs event_type original_date)
    ∧ (find_better_dates day_inputs event_type original_date).length ≤ 3
    ∧ (find_better_dates day_inputs event_type original_date).Nodup
    ∧ original_date ∉ find_better_dates day_inputs event_type original_date
    ∧ (∀ d ∈ find_better_dates day_inputs event_type original_date,
        1 ≤ |d - original_date| ∧ |d - original_date| ≤ 7 ∧
          60 ≤ day_score day_inputs event_type d)
    ∧ List.Pairwise (fun a b => day_score day_inputs event_type b ≤
        day_score day_inputs event_type a)
        (find_better_dates day_inputs event_type original_date) := by
  have instT : IsTotal (ℤ × ℤ) (fun a b : ℤ × ℤ => b.2 ≤ a.2) :=
    ⟨fun a b => le_total b.2 a.2⟩
  have instTr : IsTrans (ℤ × ℤ) (fun a b : ℤ × ℤ => b.2 ≤ a.2) :=
    ⟨fun a b c h1 h2 => le_trans h2 h1⟩
  set alts := better_date_deltas.filterMap (fun δ =>
    if 60 ≤ day_score day_inputs event_type (original_date + δ) then
      some (original_date + δ, day_score day_inputs event_type
        (original_date + δ))
    else none) with halts
  have hout : find_better_dates day_inputs event_type original_date =
      ((List.insertionSort (fun a b : ℤ × ℤ => b.2 ≤ a.2) alts).take 3).map
        Prod.fst := rfl
  have hperm : List.insertionSort (fun a b : ℤ × ℤ => b.2 ≤ a.2) alts ≈ alts :=
    List.perm_insertionSort _ alts
  have hsorted : List.Sorted (fun a b : ℤ × ℤ => b.2 ≤ a.2)
      (List.insertionSort (fun a b : ℤ × ℤ => b.2 ≤ a.2) alts) :=
    List.sorted_insertionSort _ alts
  have hmem_alts : ∀ p ∈ alts,
      p.2 = day_score day_inputs event_type p.1 ∧ 60 ≤ p.2 ∧
        ∃ δ ∈ better_date_deltas, p.1 = original_date + δ := by
    intro p hp
    exact mem_better_date_alternatives day_inputs event_type original_date p hp
  have hmem_out : ∀ d ∈ find_better_dates day_inputs event_type original_date,
      ∃ p ∈ alts, p.1 = d := by
    intro d hd
    rw [hout, List.mem_map] at hd
    obtain ⟨p, hp, rfl⟩ := hd
    exact ⟨p, hperm.subset (List.take_subset _ _ hp), rfl⟩
  refine ⟨?_, ?_, ?_, ?_, ?_, ?_, ?_⟩
  · unfold forecast_alternative_dates
    split_ifs with h <;> simp [h]
  · unfold forecast_alternative_dates
    split_ifs with h <;> intro l hl
    · cases hl
      rfl
    · cases hl
  · rw [hout, List.length_map]
    exact List.length_take_le 3 _
  · have h1 : (alts.map Prod.fst).Nodup := by
      rw [halts, List.map_filterMap]
      refine List.Nodup.filterMap ?_ better_date_deltas_nodup
      intro a a' b hb hb'
      simp only [Option.mem_def] at hb hb'
      split_ifs at hb with hc
      · split_ifs at hb' with hc'
        · simp only [Option.map_some', Option.some.injEq] at hb hb'
          omega
        · simp at hb'
      · simp at hb
    have h2 : ((List.insertionSort (fun a b : ℤ × ℤ => b.2 ≤ a.2) alts).map
        Prod.fst).Nodup := ((hperm.map Prod.fst).nodup_iff).mpr h1
    rw [hout]
    exact h2.sublist ((List.take_sublist 3 _).map Prod.fst)
  · intro hd
    obtain ⟨p, hp, hp1⟩ := hmem_out _ hd
    obtain ⟨_, _, δ, hδ, hpd⟩ := hmem_alts p hp
    have hb := better_date_deltas_bounds δ hδ
    have habs : |δ| = (δ.natAbs : ℤ) := Int.abs_eq_natAbs δ
    omega
  · intro d hd
    obtain ⟨p, hp, hp1⟩ := hmem_out _ hd
    obtain ⟨hps, hp60, δ, hδ, hpd⟩ := hmem_alts p hp
    have hb := better_date_deltas_bounds δ hδ
    have habs : |δ| = (δ.natAbs : ℤ) := Int.abs_eq_natAbs δ
    have habs2 : |d - original_date| = (((d : ℤ) - original_date).natAbs : ℤ) :=
      Int.abs_eq_natAbs _
    constructor
    · omega
    · constructor
      · omega
      · rw [← hp1, ← hps]
        exact hp60
  · rw [hout, List.pairwise_map]
    have hs3 : List.Pairwise (fun a b : ℤ × ℤ => b.2 ≤ a.2)
        ((List.insertionSort (fun a b : ℤ × ℤ => b.2 ≤ a.2) alts).take 3) :=
      List.Pairwise.sublist (List.take_sublist 3 _) hsorted
    refine hs3.imp_of_mem ?_
    intro a b ha hb hr
    have ha' := hmem_alts a (hperm.subset (List.take_subset _ _ ha))
    have hb' := hmem_alts b (hperm.subset (List.take_subset _ _ hb))
    rw [← ha'.1, ← hb'.1]
    exact hr

theorem find_better_dates_spec_witness :
    (0 : ℤ) ∉ find_better_dates contract_day_inputs EventType.contract 0
    ∧ (find_better_dates contract_day_inputs EventType.contract 0).length ≤ 3
    ∧ 60 ≤ day_score contract_day_inputs EventType.contract (-7)
    ∧ (forecast_alternative_dates contract_day_inputs EventType.contract
        0).isSome = true := by
  have h := find_better_dates_spec contract_day_inputs EventType.contract 0
  refine ⟨h.2.2.2.2.1, h.2.2.1, (h.2.2.2.2.2.1 (-7) (by decide)).2.2, ?_⟩
  rw [h.1]
  decide

theorem calculate_planets_house_none (ephem : Planet → PlanetData) :
    ∀ p ∈ calculate_planets ephem, p.house = none := by
  intro p hp
  unfold calculate_planets at hp
  dsimp only at hp
  rcases hfind : ((planets_enum.filter (fun p => decide (p ≠ .south_node))).map
      (planet_position_of ephem)).find? (fun p => decide (p.planet = .north_node))
    with _ | nn <;> simp only [hfind] at hp
  · rw [List.mem_map] at hp
    obtain ⟨q, hq, rfl⟩ := hp
    simp [planet_position_of]
  · rw [List.mem_append] at hp
    rcases hp with hp | hp
    · rw [List.mem_map] at hp
      obtain ⟨q, hq, rfl⟩ := hp
      simp [planet_position_of]
    · rw [List.mem_singleton] at hp
      subst hp
      rfl

theorem planet_position_of_mem (ephem : Planet → PlanetData) (q : Planet)
    (hq : q ∈ planets_enum) (hqs : q ≠ .south_node) :
    planet_position_of ephem q ∈ calculate_planets ephem := by
  unfold calculate_planets
  dsimp only
  have hbase : planet_position_of ephem q ∈
      (planets_enum.filter (fun p => decide (p ≠ .south_node))).map
        (planet_position_of ephem) :=
    List.mem_map_of_mem _ (List.mem_filter.mpr ⟨hq, by simp [hqs]⟩)
  rcases hfind : ((planets_enum.filter (fun p => decide (p ≠ .south_node))).map
      (planet_position_of ephem)).find? (fun p => decide (p.planet = .north_node))
    with _ | nn <;> simp only [hfind]
  · exact hbase
  · exact List.mem_append_left _ hbase

theorem exists_south_node_retrograde (ephem : Planet → PlanetData) :
    ∃ p ∈ calculate_planets ephem, p.planet = .south_node ∧
      p.retrograde = true := by
  unfold calculate_planets
  dsimp only
  have hsome : (((planets_enum.filter (fun p => decide (p ≠ .south_node))).map
      (planet_position_of ephem)).find?
        (fun p => decide (p.planet = .north_node))).isSome := by
    rw [List.find?_isSome]
    refine ⟨planet_position_of ephem .north_node, ?_, by simp [planet_position_of]⟩
    exact List.mem_map_of_mem _ (List.mem_filter.mpr (by simp [planets_enum]))
  obtain ⟨nn, hnn⟩ := Option.isSome_iff_exists.mp hsome
  simp only [hnn]
  exact ⟨_, List.mem_append_right _ (List.mem_singleton.mpr rfl), rfl, rfl⟩

/-- C2: `calculate_natal_chart` returns `houses = None` and only
house-free planet positions when no birth time is supplied, returns a
house list when a birth time is supplied, and in general houses are
present iff a birth time was supplied. -/
theorem calculate_natal_chart_houses_iff_birth_time
    (ephem : Planet → PlanetData) (swe_houses : Option (Fin 12 → ℚ))
    (birth_time : Option ℚ) :
    (birth_time = none →
      (calculate_natal_chart ephem swe_houses birth_time).houses = none
      ∧ ∀ p ∈ (calculate_natal_chart ephem swe_houses birth_time).planets,
          p.house = none)
    ∧ (∀ t, birth_time = some t →
        ∃ hs, (calculate_natal_chart ephem swe_houses birth_time).houses
          = some hs)
    ∧ ((calculate_natal_chart ephem swe_houses birth_time).houses.isSome ↔
        birth_time.isSome) := by
  refine ⟨?_, ?_, ?_⟩
  · rintro rfl
    exact ⟨rfl, calculate_planets_house_none ephem⟩
  · rintro t rfl
    exact ⟨_, rfl⟩
  · cases birth_time <;> simp [calculate_natal_chart]

theorem calculate_natal_chart_houses_iff_birth_time_witness :
    (calculate_natal_chart all_retro_ephem none none).houses = none
    ∧ (planet_position_of all_retro_ephem .sun).house = none
    ∧ ∃ hs, (calculate_natal_chart all_retro_ephem none (some 12)).houses
        = some hs := by
  have h1 := calculate_natal_chart_houses_iff_birth_time all_retro_ephem none none
  have h2 := calculate_natal_chart_houses_iff_birth_time all_retro_ephem none
    (some 12)
  refine ⟨(h1.1 rfl).1, ?_, h2.2.1 12 rfl⟩
  exact (h1.1 rfl).2 (planet_position_of all_retro_ephem .sun)
    (planet_position_of_mem all_retro_ephem .sun (by simp [planets_enum])
      (by simp))

/-- C8 (amended): for every position of a body other than the South Node,
the retrograde flag holds iff the body's daily speed is negative; the
derived South Node position is always flagged retrograde regardless of
any speed. -/
theorem calculate_planets_retrograde_iff_speed_neg_except_south_node
    (ephem : Planet → PlanetData) :
    (∀ p ∈ calculate_planets ephem, p.planet ≠ .south_node →
      (p.retrograde = true ↔ (ephem p.planet).speed < 0))
    ∧ (∀ p ∈ calculate_planets ephem, p.planet = .south_node →
        p.retrograde = true) := by
  constructor
  · intro p hp hps
    unfold calculate_planets at hp
    dsimp only at hp
    rcases hfind : ((planets_enum.filter (fun p => decide (p ≠ .south_node))).map
        (planet_position_of ephem)).find?
          (fun p => decide (p.planet = .north_node)) with _ | nn <;>
      simp only [hfind] at hp
    · rw [List.mem_map] at hp
      obtain ⟨q, hq, rfl⟩ := hp
      simp [planet_position_of, is_retrograde]
    · rw [List.mem_append] at hp
      rcases hp with hp | hp
      · rw [List.mem_map] at hp
        obtain ⟨q, hq, rfl⟩ := hp
        simp [planet_position_of, is_retrograde]
      · rw [List.mem_singleton] at hp
        subst hp
        exact absurd rfl hps
  · intro p hp hps
    unfold calculate_planets at hp
    dsimp only at hp
    rcases hfind : ((planets_enum.filter (fun p => decide (p ≠ .south_node))).map
        (planet_position_of ephem)).find?
          (fun p => decide (p.planet = .north_node)) with _ | nn <;>
      simp only [hfind] at hp
    · rw [List.mem_map] at hp
      obtain ⟨q, hq, rfl⟩ := hp
      rw [List.mem_filter] at hq
      simp [planet_position_of] at hps
      simp [hps] at hq
    · rw [List.mem_append] at hp
      rcases hp with hp | hp
      · rw [List.mem_map] at hp
        obtain ⟨q, hq, rfl⟩ := hp
        rw [List.mem_filter] at hq
        simp [planet_position_of] at hps
        simp [hps] at hq
      · rw [List.mem_singleton] at hp
        subst hp
        rfl

theorem calculate_planets_retrograde_counterexample :
    ¬ (∀ p ∈ calculate_planets all_direct_ephem,
        (p.retrograde = true ↔ (all_direct_ephem p.planet).speed < 0)) := by
  intro h
  obtain ⟨p, hp, hps, hpr⟩ := exists_south_node_retrograde all_direct_ephem
  have hneg := (h p hp).mp hpr
  rw [hps] at hneg
  norm_num [all_direct_ephem] at hneg

theorem calculate_planets_retrograde_iff_speed_neg_except_south_node_witness :
    (planet_position_of all_retro_ephem .sun).retrograde = true := by
  have h := calculate_planets_retrograde_iff_speed_neg_except_south_node
    all_retro_ephem
  refine (h.1 (planet_position_of all_retro_ephem .sun)
    (planet_position_of_mem all_retro_ephem .sun (by simp [planets_enum])
      (by simp))
    (by simp [planet_position_of])).mpr ?_
  norm_num [all_retro_ephem]

theorem same_triple_refl (t : TransitInfo) : same_triple t t := ⟨rfl, rfl, rfl⟩

theorem same_triple_symm {t u : TransitInfo} (h : same_triple t u) :
    same_triple u t := ⟨h.1.symm, h.2.1.symm, h.2.2.symm⟩

theorem same_triple_trans {t u v : TransitInfo} (h1 : same_triple t u)
    (h2 : same_triple u v) : same_triple t v :=
  ⟨h1.1.trans h2.1, h1.2.1.trans h2.2.1, h1.2.2.trans h2.2.2⟩

theorem scan_aspects_spec (diff : ℚ) (orb_of : AspectType → ℚ)
    (l : List (AspectType × ℚ)) (a : AspectType) (dev : ℚ)
    (h : scan_aspects diff orb_of l = some (a, dev)) :
    ∃ θ, (a, θ) ∈ l ∧ dev = pyabs (diff - θ) ∧ dev ≤ orb_of a := by
  induction l with
  | nil => simp [scan_aspects] at h
  | cons p rest ih =>
      rcases p with ⟨b, θ⟩
      simp only [scan_aspects] at h
      split_ifs at h with hle
      · cases h
        exact ⟨θ, by simp, rfl, hle⟩
      · obtain ⟨θ', hmem, hdev, hbound⟩ := ih h
        exact ⟨θ', by simp [hmem], hdev, hbound⟩

theorem find_transit_aspect_spec (trans_planet : Planet) (trans_longitude : ℚ)
    (natal_planet : Planet) (natal_longitude : ℚ) (check_date : ℤ)
    (t : TransitInfo)
    (h : find_transit_aspect trans_planet trans_longitude natal_planet
      natal_longitude check_date = some t) :
    t.transiting_planet = trans_planet ∧ t.natal_planet = natal_planet ∧
      t.exact_date = check_date ∧ t.orb ≤ TRANSIT_ORBS t.aspect ∧ t.orb ≤ 3 := by
  unfold find_transit_aspect at h
  dsimp only at h
  rcases hscan : scan_aspects
      (if 180 < pyabs (trans_longitude - natal_longitude) then
        360 - pyabs (trans_longitude - natal_longitude)
      else pyabs (trans_longitude - natal_longitude)) TRANSIT_ORBS ASPECT_ANGLES
    with _ | ⟨a, dev⟩ <;> simp only [hscan] at h
  · exact absurd h (by simp)
  · cases h
    obtain ⟨θ, hmem, hdev, hbound⟩ := scan_aspects_spec _ _ _ _ _ hscan
    refine ⟨rfl, rfl, rfl, hbound, le_trans hbound ?_⟩
    cases a <;> norm_num [TRANSIT_ORBS]

theorem hit_at_spec (ephem : Planet → ℤ → ℚ)
    (natal_planets : List PlanetPosition) (trans_planet natal_planet : Planet)
    (d : ℤ) (t : TransitInfo)
    (h : hit_at ephem natal_planets trans_planet natal_planet d = some t) :
    t.transiting_planet = trans_planet ∧ t.natal_planet = natal_planet ∧
      t.exact_date = d ∧ t.orb ≤ TRANSIT_ORBS t.aspect ∧ t.orb ≤ 3 := by
  unfold hit_at at h
  rcases hfind : natal_planets.find? (fun p => decide (p.planet = natal_planet))
    with _ | pos <;> simp only [hfind] at h
  · exact absurd h (by simp)
  · exact find_transit_aspect_spec _ _ _ _ _ _ h

theorem foldl_flatMap_eq {α β γ : Type} (l : List α) (g : α → List β)
    (f : γ → β → γ) (init : γ) :
    (l.flatMap g).foldl f init = l.foldl (fun acc x => (g x).foldl f acc) init := by
  induction l generalizing init with
  | nil => simp
  | cons x xs ih => simp [List.foldl_append, ih]

theorem calculate_transits_eq_dedup_fold (ephem : Planet → ℤ → ℚ)
    (natal_planets : List PlanetPosition) (start_date end_date : ℤ) :
    calculate_transits ephem natal_planets start_date end_date =
      (date_range start_date end_date).foldl
        (fun acc d => dedup_fold acc (probe_options ephem natal_planets d)) [] := by
  unfold calculate_transits
  have hfun : (fun (transits : List TransitInfo) (d : ℤ) =>
      transiting_planets.foldl (fun transits trans_planet =>
        natal_points.foldl (fun transits natal_planet =>
          match hit_at ephem natal_planets trans_planet natal_planet d with
          | none => transits
          | some aspect_info => dedup_append transits aspect_info) transits)
        transits)
      = (fun acc d => dedup_fold acc (probe_options ephem natal_planets d)) := by
    funext acc d
    unfold dedup_fold probe_options
    rw [foldl_flatMap_eq]
    have hfun2 : (fun (transits : List TransitInfo) (trans_planet : Planet) =>
        natal_points.foldl (fun transits natal_planet =>
          match hit_at ephem natal_planets trans_planet natal_planet d with
          | none => transits
          | some aspect_info => dedup_append transits aspect_info) transits)
        = (fun transits trans_planet =>
            ((natal_points.map (fun natal_planet =>
              hit_at ephem natal_planets trans_planet natal_planet d)).foldl
                dedup_step transits)) := by
      funext transits trans_planet
      rw [List.foldl_map]
      rfl
    rw [hfun2]
  rw [hfun]

theorem mem_dedup_fold_of_mem (items : List (Option TransitInfo))
    (acc : List TransitInfo) (t : TransitInfo) (h : t ∈ acc) :
    t ∈ dedup_fold acc items := by
  induction items generalizing acc with
  | nil => exact h
  | cons o items ih =>
      refine ih (dedup_step acc o) ?_
      cases o with
      | none => exact h
      | some i =>
          simp only [dedup_step, dedup_append]
          split_ifs with hdup
          · exact h
          · exact List.mem_append_left _ h

theorem mem_dedup_fold (items : List (Option TransitInfo))
    (acc : List TransitInfo) (t : TransitInfo) (h : t ∈ dedup_fold acc items) :
    t ∈ acc ∨ (some t ∈ items ∧ ∀ v ∈ acc, ¬ same_triple v t) := by
  induction items generalizing acc with
  | nil => exact Or.inl h
  | cons o items ih =>
      have h' : t ∈ dedup_fold (dedup_step acc o) items := h
      rcases ih (dedup_step acc o) h' with hin | ⟨hmem, hnone⟩
      · cases o with
        | none => exact Or.inl hin
        | some i =>
            simp only [dedup_step, dedup_append] at hin
            split_ifs at hin with hdup
            · exact Or.inl hin
            · rw [List.mem_append] at hin
              rcases hin with hin | hin
              · exact Or.inl hin
              · rw [List.mem_singleton] at hin
                subst hin
                refine Or.inr ⟨by simp, ?_⟩
                intro v hv hsame
                exact hdup ⟨v, hv, hsame⟩
      · cases o with
        | none => exact Or.inr ⟨by simp [hmem], fun v hv => hnone v hv⟩
        | some i =>
            simp only [dedup_step, dedup_append] at hnone
            split_ifs at hnone with hdup
            · refine Or.inr ⟨by simp [hmem], fun v hv hsame => ?_⟩
              obtain ⟨w, hw, hwsame⟩ := hdup
              exact hnone v hv hsame
            · refine Or.inr ⟨by simp [hmem], fun v hv hsame => ?_⟩
              exact hnone v (List.mem_append_left _ hv) hsame

theorem dedup_fold_complete (items : List (Option TransitInfo))
    (acc : List TransitInfo) (u : TransitInfo) (h : some u ∈ items) :
    ∃ v ∈ dedup_fold acc items, same_triple v u := by
  induction items generalizing acc with
  | nil => simp at h
  | cons o items ih =>
      rw [List.mem_cons] at h
      rcases h with h | h
      · subst h
        have hstep : ∃ v ∈ dedup_step acc (some u), same_triple v u := by
          simp only [dedup_step, dedup_append]
          split_ifs with hdup
          · obtain ⟨w, hw, hwsame⟩ := hdup
            exact ⟨w, hw, hwsame⟩
          · exact ⟨u, List.mem_append_right _ (List.mem_singleton.mpr rfl),
              same_triple_refl u⟩
        obtain ⟨v, hv, hvsame⟩ := hstep
        exact ⟨v, mem_dedup_fold_of_mem items _ v hv, hvsame⟩
      · exact ih (dedup_step acc o) h

theorem NoDupTriple_dedup_fold (items : List (Option TransitInfo))
    (acc : List TransitInfo) (h : NoDupTriple acc) :
    NoDupTriple (dedup_fold acc items) := by
  induction items generalizing acc with
  | nil => exact h
  | cons o items ih =>
      refine ih (dedup_step acc o) ?_
      cases o with
      | none => exact h
      | some i =>
          simp only [dedup_step, dedup_append]
          split_ifs with hdup
          · exact h
          · intro t ht u hu hsame
            rw [List.mem_append, List.mem_singleton] at ht hu
            rcases ht with ht | ht <;> rcases hu with hu | hu
            · exact h t ht u hu hsame
            · subst hu
              exact absurd ⟨t, ht, hsame⟩ hdup
            · subst ht
              exact absurd ⟨u, hu, same_triple_symm hsame⟩ hdup
            · subst ht
              subst hu
              rfl

theorem mem_probe_options (ephem : Planet → ℤ → ℚ)
    (natal_planets : List PlanetPosition) (d : ℤ) (t : TransitInfo)
    (h : some t ∈ probe_options ephem natal_planets d) :
    t.exact_date = d ∧ t.transiting_planet ∈ transiting_planets ∧
      t.natal_planet ∈ natal_points ∧
      hit_at ephem natal_planets t.transiting_planet t.natal_planet d
        = some t := by
  unfold probe_options at h
  rw [List.mem_flatMap] at h
  obtain ⟨tp, htp, h⟩ := h
  rw [List.mem_map] at h
  obtain ⟨np, hnp, hhit⟩ := h
  obtain ⟨h1, h2, h3, _⟩ := hit_at_spec _ _ _ _ _ _ hhit
  rw [h1, h2]
  exact ⟨h3, htp, hnp, hhit⟩

theorem probe_options_mem_of (ephem : Planet → ℤ → ℚ)
    (natal_planets : List PlanetPosition) (d : ℤ) (tp np : Planet)
    (htp : tp ∈ transiting_planets) (hnp : np ∈ natal_points) :
    hit_at ephem natal_planets tp np d ∈ probe_options ephem natal_planets d := by
  unfold probe_options
  rw [List.mem_flatMap]
  exact ⟨tp, htp, List.mem_map_of_mem _ hnp⟩

theorem date_range_sorted (start_date end_date : ℤ) :
    List.Pairwise (· < ·) (date_range start_date end_date) := by
  unfold date_range
  rw [List.pairwise_map]
  refine List.Pairwise.imp ?_ (List.pairwise_lt_range _)
  intro a b hab
  omega

theorem mem_date_range (start_date end_date d : ℤ) :
    d ∈ date_range start_date end_date ↔ start_date ≤ d ∧ d ≤ end_date := by
  unfold date_range
  rw [List.mem_map]
  constructor
  · rintro ⟨i, hi, rfl⟩
    rw [List.mem_range] at hi
    omega
  · rintro ⟨h1, h2⟩
    refine ⟨(d - start_date).toNat, ?_, by omega⟩
    rw [List.mem_range]
    omega

theorem transits_inv_step (ephem : Planet → ℤ → ℚ)
    (natal_planets : List PlanetPosition) (P : List ℤ) (A : List TransitInfo)
    (d0 : ℤ) (hP : ∀ p ∈ P, p < d0)
    (hinv : transits_inv ephem natal_planets P A) :
    transits_inv ephem natal_planets (P ++ [d0])
      (dedup_fold A (probe_options ephem natal_planets d0)) := by
  obtain ⟨hnodup, hfrom, hcomp, hmin⟩ := hinv
  refine ⟨NoDupTriple_dedup_fold _ _ hnodup, ?_, ?_, ?_⟩
  · intro t ht
    rcases mem_dedup_fold _ _ _ ht with hA | ⟨hprobe, hnew⟩
    · obtain ⟨h1, h2, h3, h4⟩ := hfrom t hA
      exact ⟨List.mem_append_left _ h1, h2, h3, h4⟩
    · obtain ⟨h1, h2, h3, h4⟩ := mem_probe_options _ _ _ _ hprobe
      rw [h1]
      exact ⟨List.mem_append_right _ (List.mem_singleton.mpr rfl), h2, h3, h4⟩
  · intro d hd tp htp np hnp u hu
    rw [List.mem_append, List.mem_singleton] at hd
    rcases hd with hd | hd
    · obtain ⟨v, hv, hvsame⟩ := hcomp d hd tp htp np hnp u hu
      exact ⟨v, mem_dedup_fold_of_mem _ _ _ hv, hvsame⟩
    · subst hd
      refine dedup_fold_complete _ _ u ?_
      rw [← hu]
      exact probe_options_mem_of _ _ _ _ _ htp hnp
  · intro t ht d hd u hu hasp
    rw [List.mem_append, List.mem_singleton] at hd
    rcases mem_dedup_fold _ _ _ ht with hA | ⟨hprobe, hnew⟩
    · rcases hd with hd | hd
      · exact hmin t hA d hd u hu hasp
      · subst hd
        have := (hfrom t hA).1
        have := hP _ this
        omega
    · obtain ⟨h1, h2, h3, h4⟩ := mem_probe_options _ _ _ _ hprobe
      rcases hd with hd | hd
      · obtain ⟨hu1, hu2, hu3, _⟩ := hit_at_spec _ _ _ _ _ _ hu
        obtain ⟨v, hv, hvsame⟩ := hcomp d hd _ h2 _ h3 u hu
        have hsame_ut : same_triple u t := ⟨hu1, hu2, hasp⟩
        exact absurd (same_triple_trans hvsame hsame_ut) (hnew v hv)
      · subst hd
        rw [h1]

theorem transits_inv_fold (ephem : Planet → ℤ → ℚ)
    (natal_planets : List PlanetPosition) (ds : List ℤ) (P : List ℤ)
    (A : List TransitInfo) (hsort : ∀ p ∈ P, ∀ d ∈ ds, p < d)
    (hchain : List.Pairwise (· < ·) ds)
    (hinv : transits_inv ephem natal_planets P A) :
    transits_inv ephem natal_planets (P ++ ds)
      (ds.foldl (fun acc d => dedup_fold acc (probe_options ephem natal_planets d))
        A) := by
  induction ds generalizing P A with
  | nil => simpa using hinv
  | cons d0 ds ih =>
      rw [List.pairwise_cons] at hchain
      have h1 := transits_inv_step ephem natal_planets P A d0
        (fun p hp => hsort p hp d0 (by simp)) hinv
      have h2 := ih (P ++ [d0]) _ ?_ hchain.2 h1
      · rw [List.append_assoc] at h2
        simpa using h2
      · intro p hp d hd
        rw [List.mem_append, List.mem_singleton] at hp
        rcases hp with hp | hp
        · exact hsort p hp d (by simp [hd])
        · subst hp
          exact hchain.1 d hd

theorem calculate_transits_inv (ephem : Planet → ℤ → ℚ)
    (natal_planets : List PlanetPosition) (start_date end_date : ℤ) :
    transits_inv ephem natal_planets (date_range start_date end_date)
      (calculate_transits ephem natal_planets start_date end_date) := by
  rw [calculate_transits_eq_dedup_fold]
  have h := transits_inv_fold ephem natal_planets
    (date_range start_date end_date) [] [] (by simp)
    (date_range_sorted start_date end_date)
    ⟨fun t ht => absurd ht (List.not_mem_nil t),
     fun t ht => absurd ht (List.not_mem_nil t),
     fun d hd => absurd hd (List.not_mem_nil d),
     fun t ht => absurd ht (List.not_mem_nil t)⟩
  simpa using h

/-- C4 (amended): in a multi-day transit search every (transiting body,
natal body, aspect type) triple appears at most once in the output, and
the retained `TransitInfo` is the one from the *earliest* day of the range
on which that pair produced that aspect (with that day's orb) — not
necessarily the day of minimum orb. -/
theorem calculate_transits_dedup_keeps_first (ephem : Planet → ℤ → ℚ)
    (natal_planets : List PlanetPosition) (start_date end_date : ℤ) :
    (∀ t ∈ calculate_transits ephem natal_planets start_date end_date,
      (start_date ≤ t.exact_date ∧ t.exact_date ≤ end_date)
      ∧ hit_at ephem natal_planets t.transiting_planet t.natal_planet
          t.exact_date = some t
      ∧ (∀ d, start_date ≤ d → d < t.exact_date →
          ∀ u, hit_at ephem natal_planets t.transiting_planet t.natal_planet d
              = some u →
            u.aspect ≠ t.aspect))
    ∧ (∀ t ∈ calculate_transits ephem natal_planets start_date end_date,
        ∀ u ∈ calculate_transits ephem natal_planets start_date end_date,
          same_triple t u → t = u) := by
  obtain ⟨hnodup, hfrom, hcomp, hmin⟩ :=
    calculate_transits_inv ephem natal_planets start_date end_date
  constructor
  · intro t ht
    obtain ⟨h1, h2, h3, h4⟩ := hfrom t ht
    rw [mem_date_range] at h1
    refine ⟨h1, h4, ?_⟩
    intro d hsd hlt u hu hasp
    have hd : d ∈ date_range start_date end_date := by
      rw [mem_date_range]
      omega
    have := hmin t ht d hd u hu hasp
    omega
  · exact hnodup

theorem scan_aspects_cons_pos (diff : ℚ) (orb_of : AspectType → ℚ)
    (a : AspectType) (θ : ℚ) (rest : List (AspectType × ℚ))
    (h : pyabs (diff - θ) ≤ orb_of a) :
    scan_aspects diff orb_of ((a, θ) :: rest) = some (a, pyabs (diff - θ)) := by
  simp only [scan_aspects]
  rw [if_pos h]

theorem hit_at_eval (trans_longitude : ℚ) (d : ℤ)
    (ephem : Planet → ℤ → ℚ) (he : ephem .mars d = trans_longitude)
    (dev : ℚ) (h0 : pyabs (trans_longitude - 0) = dev)
    (h180 : ¬ (180 : ℚ) < dev) (h3 : dev - 0 = dev) (hle : dev ≤ 3)
    (hnn : ¬ dev < 0) :
    hit_at ephem sun_at_zero .mars .sun d
      = some ⟨.mars, .sun, .conjunction, d, dev⟩ := by
  have hf : sun_at_zero.find? (fun p => decide (p.planet = Planet.sun))
      = some ⟨.sun, .aries, 0, 0, false, none⟩ := rfl
  unfold hit_at
  rw [hf]
  unfold find_transit_aspect
  dsimp only
  rw [he, h0, if_neg h180]
  have hscan : scan_aspects dev TRANSIT_ORBS ASPECT_ANGLES
      = some (.conjunction, dev) := by
    have hpy : pyabs (dev - 0) = dev := by
      unfold pyabs
      rw [h3, if_neg hnn]
    rw [show ASPECT_ANGLES = (AspectType.conjunction, (0 : ℚ)) ::
        [(.sextile, 60), (.square, 90), (.trine, 120), (.quincunx, 150),
         (.opposition, 180)] from rfl]
    rw [scan_aspects_cons_pos _ _ _ _ _ (by rw [hpy]; exact hle), hpy]
  rw [hscan]

theorem mars_day0_hit :
    hit_at mars_closing_ephem sun_at_zero .mars .sun 0
      = some ⟨.mars, .sun, .conjunction, 0, 2.5⟩ := by
  refine hit_at_eval 2.5 0 mars_closing_ephem rfl 2.5 (by norm_num [pyabs])
    (by norm_num) (by norm_num) (by norm_num) (by norm_num)

theorem mars_day1_hit :
    hit_at mars_closing_ephem sun_at_zero .mars .sun 1
      = some ⟨.mars, .sun, .conjunction, 1, 1⟩ := by
  refine hit_at_eval 1 1 mars_closing_ephem rfl 1 (by norm_num [pyabs])
    (by norm_num) (by norm_num) (by norm_num) (by norm_num)

theorem mars_conjunction_in_output :
    (⟨.mars, .sun, .conjunction, 0, 2.5⟩ : TransitInfo)
      ∈ calculate_transits mars_closing_ephem sun_at_zero 0 1 := by
  obtain ⟨hnodup, hfrom, hcomp, hmin⟩ :=
    calculate_transits_inv mars_closing_ephem sun_at_zero 0 1
  obtain ⟨v, hv, hvsame⟩ := hcomp 0 (by rw [mem_date_range]; omega)
    .mars (by decide) .sun (by decide) _ mars_day0_hit
  obtain ⟨hvdate, _, _, hvhit⟩ := hfrom v hv
  obtain ⟨hv1, hv2, hv3⟩ := hvsame
  have hvle : v.exact_date ≤ 0 :=
    hmin v hv 0 (by rw [mem_date_range]; omega) _
      (by rw [hv1, hv2]; exact mars_day0_hit) hv3.symm
  rw [mem_date_range] at hvdate
  have hvdate0 : v.exact_date = 0 := by omega
  rw [hv1, hv2, hvdate0, mars_day0_hit] at hvhit
  cases hvhit
  exact hv

theorem calculate_transits_min_orb_counterexample :
    (⟨.mars, .sun, .conjunction, 0, 2.5⟩ : TransitInfo)
      ∈ calculate_transits mars_closing_ephem sun_at_zero 0 1
    ∧ (⟨.mars, .sun, .conjunction, 1, 1⟩ : TransitInfo)
      ∉ calculate_transits mars_closing_ephem sun_at_zero 0 1
    ∧ hit_at mars_closing_ephem sun_at_zero .mars .sun 1
        = some ⟨.mars, .sun, .conjunction, 1, 1⟩
    ∧ (1 : ℚ) < 2.5 := by
  refine ⟨mars_conjunction_in_output, ?_, mars_day1_hit, by norm_num⟩
  intro hmem
  obtain ⟨hnodup, _, _, _⟩ :=
    calculate_transits_inv mars_closing_ephem sun_at_zero 0 1
  have heq := hnodup _ mars_conjunction_in_output _ hmem ⟨rfl, rfl, rfl⟩
  have : (0 : ℤ) = 1 := congrArg TransitInfo.exact_date heq
  exact absurd this (by decide)

theorem calculate_transits_dedup_keeps_first_witness :
    hit_at mars_closing_ephem sun_at_zero Planet.mars Planet.sun 0
      = some ⟨.mars, .sun, .conjunction, 0, 2.5⟩
    ∧ (0 : ℤ) ≤ (0 : ℤ) ∧ (0 : ℤ) ≤ (1 : ℤ) := by
  have h := (calculate_transits_dedup_keeps_first mars_closing_ephem
    sun_at_zero 0 1).1 ⟨.mars, .sun, .conjunction, 0, 2.5⟩
    mars_conjunction_in_output
  exact ⟨h.2.1, h.1⟩

theorem scan_aspects_cons_neg (diff : ℚ) (orb_of : AspectType → ℚ)
    (a : AspectType) (θ : ℚ) (rest : List (AspectType × ℚ))
    (h : ¬ pyabs (diff - θ) ≤ orb_of a) :
    scan_aspects diff orb_of ((a, θ) :: rest) = scan_aspects diff orb_of rest := by
  simp only [scan_aspects]
  rw [if_neg h]

theorem find_aspect_spec (planet1 planet2 : PlanetPosition) (a : Aspect)
    (h : find_aspect planet1 planet2 = some a) :
    a.planet1 = planet1.planet ∧ a.planet2 = planet2.planet ∧
      a.orb ≤ ASPECT_ORBS a.aspect_type ∧ a.orb ≤ 10 ∧
      a.applying = natal_is_applying planet1 planet2 a.aspect_type := by
  unfold find_aspect at h
  dsimp only at h
  rcases hscan : scan_aspects
      (if 180 < pyabs (planet1.degree - planet2.degree) then
        360 - pyabs (planet1.degree - planet2.degree)
      else pyabs (planet1.degree - planet2.degree)) ASPECT_ORBS ASPECT_ANGLES
    with _ | ⟨b, dev⟩ <;> simp only [hscan] at h
  · exact absurd h (by simp)
  · cases h
    obtain ⟨θ, hmem, hdev, hbound⟩ := scan_aspects_spec _ _ _ _ _ hscan
    refine ⟨rfl, rfl, hbound, le_trans hbound ?_, rfl⟩
    cases b <;> norm_num [ASPECT_ORBS]

theorem mem_aspects_for_pair (first second : BodyState) (r : AspectResult)
    (h : r ∈ aspects_for_pair first second) :
    r.planet1 = first.name ∧ r.planet2 = second.name ∧
      r.orb ≤ natal_orb_for first.name ∧
      ∃ target, (r.aspect, target) ∈ ASPECT_ANGLES ∧
        r.applying = aspects_is_applying first second target := by
  unfold aspects_for_pair at h
  dsimp only at h
  rw [List.mem_filterMap] at h
  obtain ⟨⟨a, θ⟩, hmem, hsome⟩ := h
  split_ifs at hsome with hle
  cases hsome
  exact ⟨rfl, rfl, hle, θ, hmem, rfl⟩

theorem mem_detect_aspects (bodies : List BodyState) (r : AspectResult)
    (h : r ∈ detect_aspects bodies) :
    ∃ first second, first ∈ bodies ∧ second ∈ bodies ∧
      r ∈ aspects_for_pair first second := by
  induction bodies with
  | nil => simp [detect_aspects] at h
  | cons b rest ih =>
      simp only [detect_aspects, List.mem_append] at h
      rcases h with h | h
      · rw [List.mem_flatMap] at h
        obtain ⟨second, hs, hr⟩ := h
        exact ⟨b, second, by simp, by simp [hs], hr⟩
      · obtain ⟨f, s, hf, hs, hr⟩ := ih h
        exact ⟨f, s, by simp [hf], by simp [hs], hr⟩

theorem mem_detect_transits (transiting_states : List TransBodyState)
    (natal_states : List NatalBodyState) (r : EngineTransit)
    (h : r ∈ detect_transits transiting_states natal_states) :
    ∃ transit ∈ transiting_states, ∃ natal ∈ natal_states,
      r.transiting = transit.name ∧ r.natal = natal.name ∧
      r.orb ≤ transit_orb_for transit.name ∧
      ∃ target, (r.aspect, target) ∈ ASPECT_ANGLES ∧
        r.applying = transits_is_applying transit natal target := by
  unfold detect_transits at h
  rw [List.mem_flatMap] at h
  obtain ⟨transit, ht, h⟩ := h
  rw [List.mem_flatMap] at h
  obtain ⟨natal, hn, h⟩ := h
  dsimp only at h
  rw [List.mem_filterMap] at h
  obtain ⟨⟨a, θ⟩, hmem, hsome⟩ := h
  split_ifs at hsome with hle
  cases hsome
  exact ⟨transit, ht, natal, hn, rfl, rfl, hle, θ, hmem, rfl⟩

/-- C1 (amended): the engine detectors respect the body-class orb limits
of the orbs policy (the natal detector bounds each emitted orb by the
natal orb of the pair's first body, the engine transit detector by the
transit orb of the transiting body), while `NatalChartCalculator` and
`TransitCalculator` enforce *aspect-type* orb tables instead:
`_find_aspect` bounds the orb by `ASPECT_ORBS[aspect]` (at most 10°) and
`_find_transit_aspect` — including every transit emitted by
`calculate_transits` — by `TRANSIT_ORBS[aspect]` (at most 3°). -/
theorem aspect_detectors_orb_limits :
    (∀ (bodies : List BodyState) (r : AspectResult),
      r ∈ detect_aspects bodies → r.orb ≤ natal_orb_for r.planet1)
    ∧ (∀ (transiting_states : List TransBodyState)
        (natal_states : List NatalBodyState) (r : EngineTransit),
        r ∈ detect_transits transiting_states natal_states →
        r.orb ≤ transit_orb_for r.transiting)
    ∧ (∀ (planet1 planet2 : PlanetPosition) (a : Aspect),
        find_aspect planet1 planet2 = some a →
        a.orb ≤ ASPECT_ORBS a.aspect_type ∧ a.orb ≤ 10)
    ∧ (∀ (trans_planet : Planet) (trans_longitude : ℚ) (natal_planet : Planet)
        (natal_longitude : ℚ) (check_date : ℤ) (t : TransitInfo),
        find_transit_aspect trans_planet trans_longitude natal_planet
          natal_longitude check_date = some t →
        t.orb ≤ TRANSIT_ORBS t.aspect ∧ t.orb ≤ 3)
    ∧ (∀ (ephem : Planet → ℤ → ℚ) (natal_planets : List PlanetPosition)
        (start_date end_date : ℤ) (t : TransitInfo),
        t ∈ calculate_transits ephem natal_planets start_date end_date →
        t.orb ≤ TRANSIT_ORBS t.aspect ∧ t.orb ≤ 3) := by
  refine ⟨?_, ?_, ?_, ?_, ?_⟩
  · intro bodies r h
    obtain ⟨first, second, hf, hs, hpair⟩ := mem_detect_aspects bodies r h
    obtain ⟨h1, h2, h3, _⟩ := mem_aspects_for_pair first second r hpair
    rw [h1]
    exact h3
  · intro ts ns r h
    obtain ⟨transit, ht, natal, hn, h1, h2, h3, _⟩ :=
      mem_detect_transits ts ns r h
    rw [h1]
    exact h3
  · intro p1 p2 a h
    obtain ⟨_, _, h3, h4, _⟩ := find_aspect_spec p1 p2 a h
    exact ⟨h3, h4⟩
  · intro tp tl np nl d t h
    obtain ⟨_, _, _, h4, h5⟩ := find_transit_aspect_spec tp tl np nl d t h
    exact ⟨h4, h5⟩
  · intro ephem natal s e t h
    obtain ⟨_, hfrom, _, _⟩ := calculate_transits_inv ephem natal s e
    obtain ⟨_, _, _, hhit⟩ := hfrom t h
    obtain ⟨_, _, _, h4, h5⟩ := hit_at_spec _ _ _ _ _ _ hhit
    exact ⟨h4, h5⟩

theorem find_transit_aspect_conj_eval (trans_planet natal_planet : Planet)
    (trans_longitude natal_longitude dev : ℚ) (check_date : ℤ)
    (h0 : pyabs (trans_longitude - natal_longitude) = dev)
    (h180 : ¬ (180 : ℚ) < dev) (h3 : dev - 0 = dev) (hnn : ¬ dev < 0)
    (hle : dev ≤ 3) :
    find_transit_aspect trans_planet trans_longitude natal_planet
      natal_longitude check_date
      = some ⟨trans_planet, natal_planet, .conjunction, check_date, dev⟩ := by
  unfold find_transit_aspect
  dsimp only
  rw [h0, if_neg h180]
  have hpy : pyabs (dev - 0) = dev := by
    unfold pyabs
    rw [h3, if_neg hnn]
  rw [show ASPECT_ANGLES = (AspectType.conjunction, (0 : ℚ)) ::
      [(.sextile, 60), (.square, 90), (.trine, 120), (.quincunx, 150),
       (.opposition, 180)] from rfl]
  rw [scan_aspects_cons_pos _ _ _ _ _ (by rw [hpy]; exact hle), hpy]

theorem mars_28_transit_aspect :
    find_transit_aspect .mars 2.8 .sun 0 0
      = some ⟨.mars, .sun, .conjunction, 0, 2.8⟩ := by
  refine find_transit_aspect_conj_eval .mars .sun 2.8 0 2.8 0
    (by norm_num [pyabs]) (by norm_num) (by norm_num) (by norm_num)
    (by norm_num)

theorem jupiter_saturn_natal_aspect :
    find_aspect jupiter_pos saturn_pos
      = some ⟨.jupiter, .saturn, .conjunction, 9.5, true⟩ := by
  unfold find_aspect
  dsimp only
  have h0 : pyabs (jupiter_pos.degree - saturn_pos.degree) = 9.5 := by
    norm_num [jupiter_pos, saturn_pos, pyabs]
  rw [h0, if_neg (by norm_num : ¬ (180 : ℚ) < 9.5)]
  have hpy : pyabs ((9.5 : ℚ) - 0) = 9.5 := by norm_num [pyabs]
  rw [show ASPECT_ANGLES = (AspectType.conjunction, (0 : ℚ)) ::
      [(.sextile, 60), (.square, 90), (.trine, 120), (.quincunx, 150),
       (.opposition, 180)] from rfl]
  rw [scan_aspects_cons_pos _ _ _ _ _
    (by rw [hpy]; norm_num [ASPECT_ORBS]), hpy]
  rfl

theorem aspect_detectors_orb_limits_counterexample :
    find_transit_aspect .mars 2.8 .sun 0 0
      = some ⟨.mars, .sun, .conjunction, 0, 2.8⟩
    ∧ transit_orb_for .mars = 2 ∧ ¬ ((2.8 : ℚ) ≤ 2)
    ∧ find_aspect jupiter_pos saturn_pos
        = some ⟨.jupiter, .saturn, .conjunction, 9.5, true⟩
    ∧ natal_orb_for .jupiter = 7 ∧ ¬ ((9.5 : ℚ) ≤ 7) := by
  exact ⟨mars_28_transit_aspect, rfl, by norm_num,
    jupiter_saturn_natal_aspect, rfl, by norm_num⟩

theorem aspect_detectors_orb_limits_witness :
    (⟨.mars, .sun, .conjunction, 0, 2.8⟩ : TransitInfo).orb ≤ 3
    ∧ (⟨.jupiter, .saturn, .conjunction, 9.5, true⟩ : Aspect).orb ≤ 10 := by
  have h1 := aspect_detectors_orb_limits.2.2.2.1 .mars 2.8 .sun 0 0 _
    mars_28_transit_aspect
  have h2 := aspect_detectors_orb_limits.2.2.1 jupiter_pos saturn_pos _
    jupiter_saturn_natal_aspect
  exact ⟨h1.2, h2.2⟩

/-- C5 (amended): the engine aspect detector classifies an emitted aspect
as applying exactly when projecting *both* longitudes forward by 0.1 day
along their instantaneous speeds strictly shrinks the magnitude of the
signed delta to the target angle; the `NatalChartCalculator` instead uses
a speed-free fast-planet heuristic (see the counterexample), and the
engine transit classifier projects only the transiting body. -/
theorem detect_aspects_applying_iff_projection_tightens
    (bodies : List BodyState) (r : AspectResult) (h : r ∈ detect_aspects bodies) :
    ∃ first second, first ∈ bodies ∧ second ∈ bodies ∧
      r.planet1 = first.name ∧ r.planet2 = second.name ∧
      ∃ target, (r.aspect, target) ∈ ASPECT_ANGLES ∧
        (r.applying = true ↔
          pyabs (delta_angle (second.longitude + second.speed * 0.1 - target)
            (first.longitude + first.speed * 0.1))
          < pyabs (delta_angle (second.longitude - target) first.longitude)) := by
  obtain ⟨first, second, hf, hs, hpair⟩ := mem_detect_aspects bodies r h
  obtain ⟨h1, h2, _, target, hmem, happ⟩ := mem_aspects_for_pair first second r hpair
  refine ⟨first, second, hf, hs, h1, h2, target, hmem, ?_⟩
  rw [happ]
  unfold aspects_is_applying
  dsimp only
  exact decide_eq_true_iff

theorem natal_applying_heuristic_counterexample :
    find_aspect moon_pos jupiter_pos0
      = some ⟨.moon, .jupiter, .trine, 5, true⟩
    ∧ aspects_is_applying moon_state jupiter_state 120 = false
    ∧ moon_state.name = moon_pos.planet
    ∧ moon_state.longitude = moon_pos.degree
    ∧ jupiter_state.name = jupiter_pos0.planet
    ∧ jupiter_state.longitude = jupiter_pos0.degree := by
  refine ⟨?_, ?_, rfl, rfl, rfl, rfl⟩
  · unfold find_aspect
    dsimp only
    have h0 : pyabs (moon_pos.degree - jupiter_pos0.degree) = 245 := by
      norm_num [moon_pos, jupiter_pos0, pyabs]
    rw [h0, if_pos (by norm_num : (180 : ℚ) < 245)]
    rw [show ASPECT_ANGLES = (AspectType.conjunction, (0 : ℚ)) ::
        [(.sextile, 60), (.square, 90), (.trine, 120), (.quincunx, 150),
         (.opposition, 180)] from rfl]
    rw [scan_aspects_cons_neg _ _ _ _ _ (by norm_num [pyabs, ASPECT_ORBS])]
    rw [show ((360 : ℚ) - 245) = 115 from by norm_num]
    rw [scan_aspects_cons_neg _ _ _ _ _ (by norm_num [pyabs, ASPECT_ORBS])]
    rw [scan_aspects_cons_neg _ _ _ _ _ (by norm_num [pyabs, ASPECT_ORBS])]
    rw [scan_aspects_cons_pos _ _ _ _ _ (by norm_num [pyabs, ASPECT_ORBS])]
    rw [show pyabs ((115 : ℚ) - 120) = 5 from by norm_num [pyabs]]
    rfl
  · unfold aspects_is_applying
    dsimp only
    rw [decide_eq_false]
    norm_num [moon_state, jupiter_state, delta_angle, normalize_angle,
      pymod, pyabs]

theorem detect_aspects_applying_iff_projection_tightens_witness :
    ¬ (pyabs (delta_angle
        (jupiter_state.longitude + jupiter_state.speed * 0.1 - 120)
        (moon_state.longitude + moon_state.speed * 0.1))
      < pyabs (delta_angle (jupiter_state.longitude - 120)
        moon_state.longitude)) := by
  have hdet : (⟨.moon, .jupiter, .trine, 5, false⟩ : AspectResult)
      ∈ detect_aspects [moon_state, jupiter_state] := by
    unfold detect_aspects detect_aspects
    refine List.mem_append_left _ ?_
    rw [List.flatMap_cons]
    refine List.mem_append_left _ ?_
    unfold aspects_for_pair
    dsimp only
    rw [List.mem_filterMap]
    refine ⟨(.trine, 120), by norm_num [ASPECT_ANGLES], ?_⟩
    have hangle : pyabs (delta_angle jupiter_state.longitude
        moon_state.longitude) = 115 := by
      norm_num [moon_state, jupiter_state, delta_angle, normalize_angle,
        pymod, pyabs]
    rw [hangle, if_pos (by norm_num [pyabs, natal_orb_for, moon_state])]
    rw [show pyabs ((115 : ℚ) - 120) = 5 from by norm_num [pyabs]]
    have happ : aspects_is_applying moon_state jupiter_state 120 = false := by
      unfold aspects_is_applying
      dsimp only
      rw [decide_eq_false]
      norm_num [moon_state, jupiter_state, delta_angle, normalize_angle,
        pymod, pyabs]
    rw [happ]
    rfl
  obtain ⟨first, second, hf, hs, h1, h2, target, hmem, hiff⟩ :=
    detect_aspects_applying_iff_projection_tightens [moon_state, jupiter_state]
      ⟨.moon, .jupiter, .trine, 5, false⟩ hdet
  have hfirst : first = moon_state := by
    rcases List.mem_cons.mp hf with h | h
    · exact h
    · rcases List.mem_cons.mp h with h | h
      · exfalso
        rw [h] at h1
        exact absurd h1 (by simp [jupiter_state])
      · exact absurd h (List.not_mem_nil first)
  have hsecond : second = jupiter_state := by
    rcases List.mem_cons.mp hs with h | h
    · exfalso
      rw [h] at h2
      exact absurd h2 (by simp [moon_state])
    · rcases List.mem_cons.mp h with h | h
      · exact h
      · exact absurd h (List.not_mem_nil second)
  have htarget : target = 120 := by
    simp [ASPECT_ANGLES] at hmem
    exact hmem
  subst hfirst
  subst hsecond
  subst htarget
  intro hlt
  have := hiff.mpr hlt
  simp at this
